import Mathlib

/-!
Shallow embedding of the progress/gamification/scheduling engine of the
flask-study-planner repository (`models.py`, `utils.py`, `routes.py`).

Conventions of the embedding:
* machine integers are `Int`/`Nat` (SQLite integers are unbounded here,
  Python ints are arbitrary precision, so no modular wrap is needed);
* timestamps and calendar days are integer day numbers (`Int`); the only
  operations the source performs on them are subtraction of dates and
  addition of a whole number of days, both exact on day numbers;
* nullable columns are `Option`;
* the entity store is a record of lists, one per table, and SQLAlchemy
  queries (`filter_by`, `join`, `first`, `count`, `all`) become list
  `filter`/`any`/`length` over those lists;
* columns that no verified operation reads (passwords, themes, notes,
  flashcard front/back text, share tokens) are omitted from the records.
-/

namespace StudyPlanner

/-- Projection of the `User` model (`models.py`): the gamification columns
`points`, `streak` and `level` default to `0`, `last_study_date` is nullable. -/
structure User where
  id : Nat
  username : String
  points : Int
  streak : Nat
  level : Int
  last_study_date : Option Int
  deriving Repr, DecidableEq

/-- Projection of the `Badge` model (`models.py`). -/
structure Badge where
  user_id : Nat
  name : String
  description : String
  icon : String
  deriving Repr, DecidableEq

/-- Projection of the `Subject` model (`models.py`). -/
structure Subject where
  id : Nat
  name : String
  user_id : Nat
  color : String
  deriving Repr, DecidableEq

/-- Projection of the `Chapter` model (`models.py`); `last_studied` is not
needed by the verified operations. -/
structure Chapter where
  id : Nat
  subject_id : Nat
  deriving Repr, DecidableEq

/-- Projection of the `Topic` model (`models.py`): `status` defaults to
`"not_started"` and `progress` to `0`.  `progress` is `Int` because the
routes store whatever integer the form submitted. -/
structure Topic where
  id : Nat
  chapter_id : Nat
  status : String
  progress : Int
  deriving Repr, DecidableEq

/-- Projection of the `Flashcard` model (`models.py`): `next_review` is
nullable, `review_count` and `mastery_level` default to `0`. -/
structure Flashcard where
  id : Nat
  topic_id : Nat
  next_review : Option Int
  review_count : Nat
  mastery_level : Nat
  deriving Repr, DecidableEq

/-- Projection of the `StudySession` model (`models.py`). -/
structure StudySession where
  user_id : Nat
  subject_id : Nat
  duration_minutes : Nat
  deriving Repr, DecidableEq

/-- The entity store: one list per table. -/
structure Store where
  subjects : List Subject
  chapters : List Chapter
  topics : List Topic
  flashcards : List Flashcard
  study_sessions : List StudySession
  badges : List Badge
  deriving Repr, DecidableEq

/-- Embedding of `register` (`routes.py`): `User(username=..., password=...)`
leaves the gamification columns at their model defaults
(`points=0`, `streak=0`, `level=0`, `last_study_date=NULL`). -/
def new_user (id : Nat) (username : String) : User :=
  { id := id, username := username, points := 0, streak := 0, level := 0,
    last_study_date := none }

/-- Embedding of `calculate_level` (`utils.py`): `int(points / 100) + 1`.
Python truncates the quotient toward zero, which is `Int.div`. -/
def calculate_level (points : Int) : Int :=
  Int.tdiv points 100 + 1

/-- The fixed badge-type to icon dictionary inside `grant_badge`
(`utils.py`), including the fallback icon of `dict.get`. -/
def badge_icons (badge_type : String) : String :=
  if badge_type = "level_up" then "🎖️"
  else if badge_type = "week_streak" then "🔥"
  else if badge_type = "month_streak" then "💎"
  else if badge_type = "first_topic" then "⭐"
  else if badge_type = "topics_master" then "🏆"
  else if badge_type = "flashcard_master" then "🧠"
  else if badge_type = "study_warrior" then "⚔️"
  else "🏅"

/-- Embedding of the lookup `Badge.query.filter_by(user_id=..., name=...).first()`
being non-null. -/
def hasBadge (badges : List Badge) (uid : Nat) (badge_type : String) : Bool :=
  badges.any fun b => b.user_id == uid && b.name == badge_type

/-- Embedding of `grant_badge` (`utils.py`): if a badge of this name already
exists for the user it is a no-op returning `false`; otherwise the badge is
inserted and the call returns `true`. -/
def grant_badge (badges : List Badge) (uid : Nat) (badge_type description : String) :
    List Badge × Bool :=
  if hasBadge badges uid badge_type then
    (badges, false)
  else
    (badges ++ [{ user_id := uid, name := badge_type, description := description,
                  icon := badge_icons badge_type }], true)

/-- Embedding of `update_user_points` (`utils.py`): adds the delta to the
points unconditionally, recomputes the level, grants a `level_up` badge on
level-up, and returns whether the level increased. -/
def update_user_points (u : User) (badges : List Badge) (delta : Int) :
    User × List Badge × Bool :=
  let old_level := u.level
  let points' := u.points + delta
  let level' := calculate_level points'
  let badges' :=
    if old_level < level' then
      (grant_badge badges u.id "level_up" ("Reached Level " ++ toString level' ++ "!")).1
    else badges
  ({ u with points := points', level := level' }, badges', decide (old_level < level'))

/-- Iterated `update_user_points` over a sequence of deltas (— the callers in
`routes.py` invoke it once per user action). -/
def applyPointDeltas (u : User) (badges : List Badge) : List Int → User × List Badge
  | [] => (u, badges)
  | d :: ds =>
    let r := update_user_points u badges d
    applyPointDeltas r.1 r.2.1 ds

/-- The stored `level` after each call of an iterated `update_user_points`
sequence. -/
def levelsTrace (u : User) (badges : List Badge) : List Int → List Int
  | [] => []
  | d :: ds =>
    let r := update_user_points u badges d
    r.1.level :: levelsTrace r.1 r.2.1 ds

/-- Embedding of `update_streak` (`utils.py`): `today` is the current UTC
day number.  Compares it to the day of `last_study_date`; a difference of 1
increments the streak (granting `week_streak` at 7 and `month_streak` at 30),
a difference above 1 resets the streak to 1, an unset `last_study_date` sets
it to 1, and any other difference (0, or negative clock skew) leaves it
unchanged.  Always stores `today` and returns the resulting streak. -/
def update_streak (u : User) (badges : List Badge) (today : Int) :
    User × List Badge × Nat :=
  match u.last_study_date with
  | some last_date =>
    let days_diff := today - last_date
    if days_diff = 1 then
      let streak' := u.streak + 1
      let badges' :=
        if streak' = 7 then
          (grant_badge badges u.id "week_streak" "7-day study streak!").1
        else if streak' = 30 then
          (grant_badge badges u.id "month_streak" "30-day study streak!").1
        else badges
      ({ u with streak := streak', last_study_date := some today }, badges', streak')
    else if 1 < days_diff then
      ({ u with streak := 1, last_study_date := some today }, badges, 1)
    else
      ({ u with last_study_date := some today }, badges, u.streak)
  | none =>
    ({ u with streak := 1, last_study_date := some today }, badges, 1)

/-- The interval table of `calculate_next_review` (`utils.py`): days until
the next review, indexed by mastery level 0 to 5. -/
def intervals : List Nat := [1, 3, 7, 14, 30, 60]

/-- Embedding of `calculate_next_review` (`utils.py`): `now` plus the table
interval for the mastery level, or 90 days beyond the table.  The
`review_count` argument is accepted and unused, as in the source. -/
def calculate_next_review (mastery_level : Nat) (review_count : Nat) (now : Int) : Int :=
  let days : Nat :=
    if mastery_level < intervals.length then intervals.getD mastery_level 0 else 90
  now + (days : Int)

/-- Embedding of `update_flashcard_mastery` (`utils.py`): increments the
review count, moves mastery by one (clamped to `[0,5]`; `Nat` subtraction
realises `max(mastery_level - 1, 0)`), schedules the next review from the
new mastery level, and returns that level. -/
def update_flashcard_mastery (f : Flashcard) (correct : Bool) (now : Int) :
    Flashcard × Nat :=
  let review_count' := f.review_count + 1
  let mastery' :=
    if correct then min (f.mastery_level + 1) 5
    else max (f.mastery_level - 1) 0
  let f' : Flashcard :=
    { f with
      review_count := review_count'
      mastery_level := mastery'
      next_review := some (calculate_next_review mastery' review_count' now) }
  (f', mastery')

/-- Iterated `update_flashcard_mastery` over a sequence of review outcomes. -/
def applyReviews (f : Flashcard) (now : Int) : List Bool → Flashcard
  | [] => f
  | c :: cs => applyReviews (update_flashcard_mastery f c now).1 now cs

/-- Embedding of the join `Topic -> Chapter -> Subject` filtered by
`user_id`, shared by `get_due_flashcards` and `check_achievements`
(`utils.py`). -/
def topic_owned_by (s : Store) (uid : Nat) (t : Topic) : Bool :=
  s.chapters.any fun c => c.id == t.chapter_id &&
    (s.subjects.any fun sub => sub.id == c.subject_id && sub.user_id == uid)

/-- Embedding of the join `Flashcard -> Topic -> Chapter -> Subject`
filtered by `user_id` (`utils.py`). -/
def flashcard_owned_by (s : Store) (uid : Nat) (f : Flashcard) : Bool :=
  s.topics.any fun t => t.id == f.topic_id && topic_owned_by s uid t

/-- Embedding of `get_due_flashcards` (`utils.py`): the user's flashcards
with `next_review <= utcnow()`.  In SQL the comparison is unknown for a NULL
`next_review`, so never-reviewed cards do not match. -/
def get_due_flashcards (s : Store) (uid : Nat) (now : Int) : List Flashcard :=
  s.flashcards.filter fun f =>
    flashcard_owned_by s uid f &&
    (match f.next_review with
     | some nr => decide (nr ≤ now)
     | none => false)

/-- Embedding of the completed-topics counter of `check_achievements`
(`utils.py`): completed topics joined down to the user's subjects. -/
def completed_topics_count (s : Store) (uid : Nat) : Nat :=
  (s.topics.filter fun t => t.status == "completed" && topic_owned_by s uid t).length

/-- Embedding of the mastered-flashcards counter of `check_achievements`
(`utils.py`): the user's flashcards with `mastery_level >= 5`. -/
def mastered_flashcards_count (s : Store) (uid : Nat) : Nat :=
  (s.flashcards.filter fun f =>
    flashcard_owned_by s uid f && decide (5 ≤ f.mastery_level)).length

/-- Sum of `duration_minutes` over the user's study sessions (`utils.py`). -/
def total_study_minutes (s : Store) (uid : Nat) : Nat :=
  ((s.study_sessions.filter fun ss => ss.user_id == uid).map
    fun ss => ss.duration_minutes).sum

/-- Embedding of the study-hours counter of `check_achievements`
(`utils.py`): the minute total divided by 60 in exact (Python float, here
rational) arithmetic. -/
def total_study_hours (s : Store) (uid : Nat) : Rat :=
  (total_study_minutes s uid : Rat) / 60

/-- Embedding of `check_achievements` (`utils.py`): for each threshold that
holds, calls `grant_badge` (which dedupes) and appends the label to the
returned list — the label is appended whether or not the badge was newly
granted. -/
def check_achievements (s : Store) (u : User) : Store × List String :=
  let completed_topics := completed_topics_count s u.id
  let step1 :=
    if completed_topics = 1 then
      ((grant_badge s.badges u.id "first_topic" "Completed your first topic!").1,
       ["First Topic Completed"])
    else (s.badges, [])
  let step2 :=
    if 100 ≤ completed_topics then
      ((grant_badge step1.1 u.id "topics_master" "Completed 100 topics!").1,
       step1.2 ++ ["Topics Master"])
    else step1
  let mastered_flashcards := mastered_flashcards_count s u.id
  let step3 :=
    if 50 ≤ mastered_flashcards then
      ((grant_badge step2.1 u.id "flashcard_master" "Mastered 50 flashcards!").1,
       step2.2 ++ ["Flashcard Master"])
    else step2
  let step4 :=
    if 100 ≤ total_study_hours s u.id then
      ((grant_badge step3.1 u.id "study_warrior" "Studied for 100 hours!").1,
       step3.2 ++ ["Study Warrior"])
    else step3
  ({ s with badges := step4.1 }, step4.2)

/-- Embedding of the `update_progress` action of `subject_detail`
(`routes.py`): stores the submitted status and the submitted progress
integer directly on the topic. -/
def update_progress_action (t : Topic) (status : String) (progress : Int) : Topic :=
  { t with status := status, progress := progress }

/-- Embedding of `update_topic` (`routes.py`): form fields default to the
topic's current values, and the submitted progress integer is stored
directly. -/
def update_topic (t : Topic) (status : Option String) (progress : Option Int) : Topic :=
  { t with status := status.getD t.status, progress := progress.getD t.progress }

/-- Number of badges of a given name held by a given user. -/
def countBadge (badges : List Badge) (uid : Nat) (ty : String) : Nat :=
  (badges.filter fun b => b.user_id == uid && b.name == ty).length

/-- Specification-level ownership: the flashcard belongs to the user through
the Topic to Chapter to Subject chain. -/
def OwnsFlashcard (s : Store) (uid : Nat) (f : Flashcard) : Prop :=
  ∃ t ∈ s.topics, t.id = f.topic_id ∧
    ∃ c ∈ s.chapters, c.id = t.chapter_id ∧
      ∃ sub ∈ s.subjects, sub.id = c.subject_id ∧ sub.user_id = uid

/-- Specification-level interval table: mastery levels 0 to 5 map to the
fixed schedule 1, 3, 7, 14, 30, 60 days; any level beyond the table maps to
90 days. -/
def intervalDaysSpec : Nat → Nat
  | 0 => 1
  | 1 => 3
  | 2 => 7
  | 3 => 14
  | 4 => 30
  | 5 => 60
  | _ => 90

/-- A store where user 1 has exactly one completed topic and already holds
the `first_topic` badge (granted by an earlier call). -/
def store_first_topic_held : Store :=
  { subjects := [⟨1, "Math", 1, "#3498db"⟩]
    chapters := [⟨1, 1⟩]
    topics := [⟨1, 1, "completed", 100⟩]
    flashcards := []
    study_sessions := []
    badges := [⟨1, "first_topic", "Completed your first topic!", "⭐"⟩] }

/-- The user owning the entities of the concrete stores above. -/
def demo_user : User := ⟨1, "alice", 0, 0, 1, none⟩

/-- A store with one flashcard of user 1 due at time 50, one never reviewed,
and one due only at time 200. -/
def store_due_cards : Store :=
  { subjects := [⟨1, "Math", 1, "#3498db"⟩]
    chapters := [⟨1, 1⟩]
    topics := [⟨1, 1, "not_started", 0⟩]
    flashcards := [⟨1, 1, some 50, 0, 0⟩, ⟨2, 1, none, 0, 0⟩, ⟨3, 1, some 200, 0, 0⟩]
    study_sessions := []
    badges := [] }

/-! Helper lemmas about the gamification operations. -/

lemma update_user_points_points (u : User) (b : List Badge) (d : Int) :
    (update_user_points u b d).1.points = u.points + d := rfl

lemma update_user_points_level (u : User) (b : List Badge) (d : Int) :
    (update_user_points u b d).1.level = calculate_level (u.points + d) := rfl

lemma update_user_points_ret (u : User) (b : List Badge) (d : Int) :
    (update_user_points u b d).2.2 = decide (u.level < calculate_level (u.points + d)) := rfl

lemma update_user_points_badges (u : User) (b : List Badge) (d : Int) :
    (update_user_points u b d).2.1 =
      if u.level < calculate_level (u.points + d) then
        (grant_badge b u.id "level_up"
          ("Reached Level " ++ toString (calculate_level (u.points + d)) ++ "!")).1
      else b := rfl

lemma calculate_level_eq (p : Int) (h : 0 ≤ p) : calculate_level p = p / 100 + 1 := by
  unfold calculate_level
  rw [Int.tdiv_eq_ediv h (by norm_num)]

lemma calculate_level_one_le (p : Int) (h : 0 ≤ p) : 1 ≤ calculate_level p := by
  rw [calculate_level_eq p h]
  have : 0 ≤ p / 100 := Int.ediv_nonneg h (by norm_num)
  omega

lemma calculate_level_mono {a b : Int} (ha : 0 ≤ a) (hab : a ≤ b) :
    calculate_level a ≤ calculate_level b := by
  rw [calculate_level_eq a ha, calculate_level_eq b (le_trans ha hab)]
  have := Int.ediv_le_ediv (c := 100) (by norm_num) hab
  omega

lemma hasBadge_grant_self (b : List Badge) (uid : Nat) (ty d : String) :
    hasBadge (grant_badge b uid ty d).1 uid ty = true := by
  unfold grant_badge
  split
  · assumption
  · simp [hasBadge]

lemma hasBadge_grant_ne (b : List Badge) (uid : Nat) (ty d ty' : String) (h : ty' ≠ ty) :
    hasBadge (grant_badge b uid ty d).1 uid ty' = hasBadge b uid ty' := by
  unfold grant_badge
  split
  · rfl
  · simp [hasBadge, Ne.symm h]

lemma hasBadge_false_iff (b : List Badge) (uid : Nat) (ty : String) :
    hasBadge b uid ty = false ↔ countBadge b uid ty = 0 := by
  simp [hasBadge, countBadge, List.length_eq_zero, List.filter_eq_nil_iff,
    List.any_eq_true]

lemma grant_badge_of_has (b : List Badge) (uid : Nat) (ty d : String)
    (h : hasBadge b uid ty = true) : grant_badge b uid ty d = (b, false) := by
  simp [grant_badge, h]

lemma grant_badge_of_not_has (b : List Badge) (uid : Nat) (ty d : String)
    (h : hasBadge b uid ty = false) :
    grant_badge b uid ty d =
      (b ++ [{ user_id := uid, name := ty, description := d, icon := badge_icons ty }],
        true) := by
  simp [grant_badge, h]

lemma countBadge_append (b : List Badge) (x : Badge) (u : Nat) (t : String) :
    countBadge (b ++ [x]) u t =
      countBadge b u t + if (x.user_id == u && x.name == t) = true then 1 else 0 := by
  simp only [countBadge, List.filter_append]
  rw [List.length_append]
  congr 1
  by_cases h : (x.user_id == u && x.name == t) = true
  · simp [List.filter_cons, h]
  · simp [List.filter_cons, h]

lemma applyPointDeltas_points_mono :
    ∀ (ds : List Int) (u : User) (b : List Badge), (∀ d ∈ ds, 0 ≤ d) →
      u.points ≤ (applyPointDeltas u b ds).1.points := by
  intro ds
  induction ds with
  | nil => intro u b _; simp [applyPointDeltas]
  | cons d ds ih =>
    intro u b h
    have h0 : (0 : Int) ≤ d := h d (by simp)
    have h1 := ih (update_user_points u b d).1 (update_user_points u b d).2.1
      (fun x hx => h x (by simp [hx]))
    simp only [applyPointDeltas]
    have h2 : u.points ≤ (update_user_points u b d).1.points := by
      rw [update_user_points_points]; omega
    exact le_trans h2 h1

lemma levelsTrace_chain_aux :
    ∀ (ds : List Int) (u : User) (b : List Badge), 0 ≤ u.points → (∀ d ∈ ds, 0 ≤ d) →
      List.Chain' (· ≤ ·) (calculate_level u.points :: levelsTrace u b ds) := by
  intro ds
  induction ds with
  | nil => intro u b _ _; simp [levelsTrace]
  | cons d ds ih =>
    intro u b hu h
    have h0 : (0 : Int) ≤ d := h d (by simp)
    have hnext := ih (update_user_points u b d).1 (update_user_points u b d).2.1
      (by rw [update_user_points_points]; omega)
      (fun x hx => h x (by simp [hx]))
    rw [update_user_points_points] at hnext
    simp only [levelsTrace]
    rw [List.chain'_cons]
    constructor
    · rw [update_user_points_level]
      exact calculate_level_mono hu (by omega)
    · rw [update_user_points_level]
      exact hnext

/-! Claim theorems. -/

/-- C1 (counterexample): submitting `progress = 150` stores `150`, not the
clamped value `100` — neither route clamps the submitted progress. -/
theorem progress_not_clamped_counterexample :
    (update_progress_action ⟨1, 1, "not_started", 0⟩ "in_progress" 150).progress = 150 ∧
    (update_topic ⟨1, 1, "not_started", 0⟩ (some "in_progress") (some 150)).progress = 150 ∧
    ¬ ((update_progress_action ⟨1, 1, "not_started", 0⟩ "in_progress" 150).progress ≤ 100) := by
  decide

/-- C1 (amended): both progress updates store the submitted integer as-is,
with no clamping to `[0, 100]`. -/
theorem progress_stored_as_submitted :
    ∀ (t : Topic) (status : String) (p : Int) (so : Option String),
      (update_progress_action t status p).progress = p ∧
      (update_topic t so (some p)).progress = p := by
  intro t status p so
  exact ⟨rfl, rfl⟩

/-- C2 (counterexample): a negative delta is applied rather than ignored —
points drop from 100 to 50 on `update_user_points u (-50)`. -/
theorem addPoints_negative_delta_counterexample :
    (update_user_points ⟨1, "u", 100, 0, 2, none⟩ [] (-50)).1.points = 50 ∧
    (update_user_points ⟨1, "u", 100, 0, 2, none⟩ [] (-50)).1.points ≠ 100 := by
  decide

/-- C2 (amended): `update_user_points` applies any integer delta
unconditionally, so a negative delta strictly decreases the stored points;
points are non-decreasing only across sequences of non-negative deltas. -/
theorem addPoints_applies_any_delta :
    ∀ (u : User) (b : List Badge) (delta : Int),
      (update_user_points u b delta).1.points = u.points + delta ∧
      (delta < 0 → (update_user_points u b delta).1.points < u.points) ∧
      (0 ≤ delta → u.points ≤ (update_user_points u b delta).1.points) ∧
      (∀ ds : List Int, (∀ d ∈ ds, 0 ≤ d) →
        u.points ≤ (applyPointDeltas u b ds).1.points) := by
  intro u b delta
  refine ⟨rfl, ?_, ?_, ?_⟩
  · intro h; rw [update_user_points_points]; omega
  · intro h; rw [update_user_points_points]; omega
  · exact fun ds h => applyPointDeltas_points_mono ds u b h

theorem addPoints_applies_any_delta_witness :
    (update_user_points ⟨1, "u", 100, 0, 2, none⟩ [] 7).1.points = 107 ∧
    (⟨1, "u", 100, 0, 2, none⟩ : User).points ≤
      (applyPointDeltas ⟨1, "u", 100, 0, 2, none⟩ [] [7, 3]).1.points := by
  have h := addPoints_applies_any_delta ⟨1, "u", 100, 0, 2, none⟩ [] 7
  exact ⟨h.1, h.2.2.2 [7, 3] (by decide)⟩

/-- C3: for non-negative starting points and delta, `update_user_points`
stores `points + delta`, stores level `floor(points / 100) + 1`, returns
`true` exactly when the stored level exceeds the previous one (in which case
a `level_up` badge is held afterwards), and the stored level is monotone
non-decreasing along any sequence of non-negative deltas. -/
theorem addPoints_level_spec :
    ∀ (u : User) (b : List Badge) (delta : Int), 0 ≤ u.points → 0 ≤ delta →
      (update_user_points u b delta).1.points = u.points + delta ∧
      (update_user_points u b delta).1.level = (u.points + delta) / 100 + 1 ∧
      ((update_user_points u b delta).2.2 = true ↔
        u.level < (update_user_points u b delta).1.level) ∧
      ((update_user_points u b delta).2.2 = true →
        hasBadge (update_user_points u b delta).2.1 u.id "level_up" = true) ∧
      (∀ ds : List Int, (∀ d ∈ ds, 0 ≤ d) →
        List.Chain' (· ≤ ·) (levelsTrace u b ds)) := by
  intro u b delta hu hd
  refine ⟨rfl, ?_, ?_, ?_, ?_⟩
  · rw [update_user_points_level, calculate_level_eq _ (by omega)]
  · rw [update_user_points_ret, update_user_points_level]
    simp
  · intro hret
    rw [update_user_points_ret] at hret
    simp only [decide_eq_true_eq] at hret
    rw [update_user_points_badges, if_pos hret]
    exact hasBadge_grant_self ..
  · intro ds h
    exact (levelsTrace_chain_aux ds u b hu h).tail

theorem addPoints_level_spec_witness :
    (update_user_points (new_user 1 "a") [] 150).1.points = 150 ∧
    (update_user_points (new_user 1 "a") [] 150).1.level = 2 := by
  have h := addPoints_level_spec (new_user 1 "a") [] 150 (by decide) (by decide)
  refine ⟨h.1, ?_⟩
  rw [h.2.1]
  decide

/-- C6: granting the same badge type twice creates exactly one badge row:
the first call returns `true`, the second is a no-op returning `false`; and
`grant_badge` preserves the one-badge-per-type invariant. -/
theorem grantBadge_once_per_type :
    ∀ (b : List Badge) (uid : Nat) (ty d1 d2 : String),
      (countBadge b uid ty = 0 →
        (grant_badge b uid ty d1).2 = true ∧
        (grant_badge (grant_badge b uid ty d1).1 uid ty d2).2 = false ∧
        (grant_badge (grant_badge b uid ty d1).1 uid ty d2).1 =
          (grant_badge b uid ty d1).1 ∧
        countBadge (grant_badge (grant_badge b uid ty d1).1 uid ty d2).1 uid ty = 1) ∧
      ((∀ u t, countBadge b u t ≤ 1) →
        ∀ u t, countBadge (grant_badge b uid ty d1).1 u t ≤ 1) := by
  intro b uid ty d1 d2
  constructor
  · intro h0
    have hfalse : hasBadge b uid ty = false := (hasBadge_false_iff b uid ty).mpr h0
    have hgrant1 : (grant_badge b uid ty d1).2 = true := by
      rw [grant_badge_of_not_has b uid ty d1 hfalse]
    have hself : hasBadge (grant_badge b uid ty d1).1 uid ty = true :=
      hasBadge_grant_self b uid ty d1
    have hgrant2 := grant_badge_of_has (grant_badge b uid ty d1).1 uid ty d2 hself
    have hgrant2ret : (grant_badge (grant_badge b uid ty d1).1 uid ty d2).2 = false := by
      rw [hgrant2]
    have hgrant2list : (grant_badge (grant_badge b uid ty d1).1 uid ty d2).1 =
        (grant_badge b uid ty d1).1 := by
      rw [hgrant2]
    refine ⟨hgrant1, hgrant2ret, hgrant2list, ?_⟩
    rw [hgrant2list]
    have hlist : (grant_badge b uid ty d1).1 =
        b ++ [{ user_id := uid, name := ty, description := d1, icon := badge_icons ty }] := by
      rw [grant_badge_of_not_has b uid ty d1 hfalse]
    rw [hlist, countBadge_append]
    simp [h0]
  · intro hinv u t
    by_cases hcase : hasBadge b uid ty = true
    · rw [grant_badge_of_has b uid ty d1 hcase]
      exact hinv u t
    · have hfalse : hasBadge b uid ty = false := by
        revert hcase
        cases hasBadge b uid ty <;> simp
      rw [grant_badge_of_not_has b uid ty d1 hfalse, countBadge_append]
      split
      · rename_i hmatch
        simp only [Bool.and_eq_true, beq_iff_eq] at hmatch
        obtain ⟨h1, h2⟩ := hmatch
        subst h1
        subst h2
        have h0 : countBadge b uid ty = 0 := (hasBadge_false_iff b uid ty).mp hfalse
        omega
      · have := hinv u t
        omega

theorem grantBadge_once_per_type_witness :
    (grant_badge [] 1 "welcome" "w").2 = true ∧
    (grant_badge (grant_badge [] 1 "welcome" "w").1 1 "welcome" "w").2 = false ∧
    countBadge (grant_badge (grant_badge [] 1 "welcome" "w").1 1 "welcome" "w").1
      1 "welcome" = 1 := by
  have h := (grantBadge_once_per_type [] 1 "welcome" "w" "w").1 (by decide)
  exact ⟨h.1, h.2.1, h.2.2.2⟩

/-- C10 (counterexample): a freshly registered user has stored level 0, not
at least 1 — the `User` model defaults `level` to 0 and registration leaves
it untouched. -/
theorem fresh_user_level_counterexample :
    (new_user 1 "alice").level = 0 ∧ ¬ (1 ≤ (new_user 1 "alice").level) := by
  decide

/-- C10 (amended): a freshly created user has level 0 (the model default);
the stored level is at least 1 after any `update_user_points` call whose
resulting points are non-negative. -/
theorem fresh_user_level_zero_then_positive :
    (∀ (id : Nat) (username : String), (new_user id username).level = 0) ∧
    (∀ (u : User) (b : List Badge) (d : Int), 0 ≤ u.points + d →
      1 ≤ (update_user_points u b d).1.level) := by
  refine ⟨fun _ _ => rfl, fun u b d h => ?_⟩
  rw [update_user_points_level]
  exact calculate_level_one_le _ h

theorem fresh_user_level_zero_then_positive_witness :
    1 ≤ (update_user_points (new_user 1 "a") [] 10).1.level := by
  exact fresh_user_level_zero_then_positive.2 (new_user 1 "a") [] 10 (by decide)

lemma update_streak_none (u : User) (b : List Badge) (today : Int)
    (h : u.last_study_date = none) :
    update_streak u b today =
      ({ u with streak := 1, last_study_date := some today }, b, 1) := by
  simp [update_streak, h]

lemma update_streak_inc (u : User) (b : List Badge) (today last : Int)
    (h : u.last_study_date = some last) (h1 : today - last = 1) :
    update_streak u b today =
      ({ u with streak := u.streak + 1, last_study_date := some today },
       (if u.streak + 1 = 7 then
          (grant_badge b u.id "week_streak" "7-day study streak!").1
        else if u.streak + 1 = 30 then
          (grant_badge b u.id "month_streak" "30-day study streak!").1
        else b),
       u.streak + 1) := by
  simp [update_streak, h, h1]

lemma update_streak_reset (u : User) (b : List Badge) (today last : Int)
    (h : u.last_study_date = some last) (h1 : 1 < today - last) :
    update_streak u b today =
      ({ u with streak := 1, last_study_date := some today }, b, 1) := by
  have hne : ¬(today - last = 1) := by omega
  simp [update_streak, h, hne, h1]

lemma update_streak_same (u : User) (b : List Badge) (today last : Int)
    (h : u.last_study_date = some last) (h1 : ¬(today - last = 1))
    (h2 : ¬(1 < today - last)) :
    update_streak u b today =
      ({ u with last_study_date := some today }, b, u.streak) := by
  simp [update_streak, h, h1, h2]

/-- C4: the streak update sets the streak to 1 on a first-ever activity or a
gap of more than one day, increments it by one on a gap of exactly one day
(after which the `week_streak` badge is held exactly when it was already held
or the new streak is 7, and `month_streak` likewise at 30), leaves it
unchanged on a same-day call, always stores the current day in
`last_study_date`, and returns the resulting streak. -/
theorem recordStudyActivity_spec :
    ∀ (u : User) (b : List Badge) (today : Int),
      (update_streak u b today).1.last_study_date = some today ∧
      (update_streak u b today).2.2 = (update_streak u b today).1.streak ∧
      (u.last_study_date = none →
        (update_streak u b today).1.streak = 1 ∧ (update_streak u b today).2.1 = b) ∧
      (∀ last, u.last_study_date = some last →
        (1 < today - last →
          (update_streak u b today).1.streak = 1 ∧
          (update_streak u b today).2.1 = b) ∧
        (today - last = 0 →
          (update_streak u b today).1.streak = u.streak ∧
          (update_streak u b today).2.1 = b) ∧
        (today - last = 1 →
          (update_streak u b today).1.streak = u.streak + 1 ∧
          (hasBadge (update_streak u b today).2.1 u.id "week_streak" = true ↔
            (hasBadge b u.id "week_streak" = true ∨ u.streak + 1 = 7)) ∧
          (hasBadge (update_streak u b today).2.1 u.id "month_streak" = true ↔
            (hasBadge b u.id "month_streak" = true ∨ u.streak + 1 = 30)))) := by
  intro u b today
  rcases hls : u.last_study_date with _ | last_date
  · rw [update_streak_none u b today hls]
    refine ⟨rfl, rfl, fun _ => ⟨rfl, rfl⟩, ?_⟩
    intro last h'
    exact Option.noConfusion h'
  · by_cases h1 : today - last_date = 1
    · rw [update_streak_inc u b today last_date hls h1]
      refine ⟨rfl, rfl, ?_, ?_⟩
      · intro h'
        exact Option.noConfusion h'
      · intro last h'
        injection h' with h''
        subst h''
        refine ⟨fun hgt => absurd h1 (by omega), fun h0 => absurd h1 (by omega), fun _ => ?_⟩
        refine ⟨rfl, ?_, ?_⟩
        · by_cases h7 : u.streak + 1 = 7
          · simp only [if_pos h7]
            simp [hasBadge_grant_self, h7]
          · by_cases h30 : u.streak + 1 = 30
            · simp only [if_neg h7, if_pos h30]
              rw [hasBadge_grant_ne b u.id "month_streak" "30-day study streak!"
                "week_streak" (by decide)]
              simp [h7]
            · simp only [if_neg h7, if_neg h30]
              simp [h7]
        · by_cases h7 : u.streak + 1 = 7
          · simp only [if_pos h7]
            rw [hasBadge_grant_ne b u.id "week_streak" "7-day study streak!"
              "month_streak" (by decide)]
            have : ¬(u.streak + 1 = 30) := by omega
            simp [this]
          · by_cases h30 : u.streak + 1 = 30
            · simp only [if_neg h7, if_pos h30]
              simp [hasBadge_grant_self, h30]
            · simp only [if_neg h7, if_neg h30]
              simp [h30]
    · by_cases h2 : 1 < today - last_date
      · rw [update_streak_reset u b today last_date hls h2]
        refine ⟨rfl, rfl, ?_, ?_⟩
        · intro h'
          exact Option.noConfusion h'
        · intro last h'
          injection h' with h''
          subst h''
          exact ⟨fun _ => ⟨rfl, rfl⟩, fun h0 => absurd h0 (by omega),
            fun hd1 => absurd hd1 h1⟩
      · rw [update_streak_same u b today last_date hls h1 h2]
        refine ⟨rfl, rfl, ?_, ?_⟩
        · intro h'
          exact Option.noConfusion h'
        · intro last h'
          injection h' with h''
          subst h''
          exact ⟨fun hgt => absurd hgt h2, fun _ => ⟨rfl, rfl⟩,
            fun hd1 => absurd hd1 h1⟩

theorem recordStudyActivity_spec_witness :
    (update_streak ⟨1, "a", 0, 6, 1, some 10⟩ [] 11).1.streak = 7 ∧
    hasBadge (update_streak ⟨1, "a", 0, 6, 1, some 10⟩ [] 11).2.1 1 "week_streak" = true := by
  have h := (recordStudyActivity_spec ⟨1, "a", 0, 6, 1, some 10⟩ [] 11).2.2.2 10 rfl
  have h2 := h.2.2 (by decide)
  refine ⟨by rw [h2.1], ?_⟩
  exact h2.2.1.mpr (Or.inr (by decide))

lemma calculate_next_review_eq (m rc : Nat) (now : Int) :
    calculate_next_review m rc now = now + (intervalDaysSpec m : Int) := by
  rcases m with _ | _ | _ | _ | _ | _ | k
  · rfl
  · rfl
  · rfl
  · rfl
  · rfl
  · rfl
  · have hge : ¬(k + 6 < intervals.length) := by
      simp [intervals]
    simp [calculate_next_review, hge, intervalDaysSpec]

lemma update_flashcard_mastery_mastery (f : Flashcard) (c : Bool) (now : Int) :
    (update_flashcard_mastery f c now).1.mastery_level =
      if c then min (f.mastery_level + 1) 5 else max (f.mastery_level - 1) 0 := rfl

lemma update_flashcard_mastery_step_le (f : Flashcard) (c : Bool) (now : Int)
    (h : f.mastery_level ≤ 5) :
    (update_flashcard_mastery f c now).1.mastery_level ≤ 5 := by
  rw [update_flashcard_mastery_mastery]
  cases c
  · simp
    omega
  · simp

lemma applyReviews_mastery_le :
    ∀ (seq : List Bool) (f : Flashcard) (now : Int), f.mastery_level ≤ 5 →
      (applyReviews f now seq).mastery_level ≤ 5 := by
  intro seq
  induction seq with
  | nil => intro f now h; simpa [applyReviews] using h
  | cons c cs ih =>
    intro f now h
    simp only [applyReviews]
    exact ih _ now (update_flashcard_mastery_step_le f c now h)

/-- C5: reviewing a flashcard with mastery in `[0,5]` increments the review
count, moves the mastery one step up (capped at 5) on a correct answer and
one step down (floored at 0) otherwise, keeps mastery within `[0,5]` under
any review sequence, returns the updated mastery, and schedules the next
review at `now` plus the fixed table interval for the new mastery level
(90 days beyond the table). -/
theorem reviewFlashcard_spec :
    ∀ (f : Flashcard) (correct : Bool) (now : Int), f.mastery_level ≤ 5 →
      (update_flashcard_mastery f correct now).1.review_count = f.review_count + 1 ∧
      (correct = true →
        (update_flashcard_mastery f correct now).1.mastery_level =
          min (f.mastery_level + 1) 5) ∧
      (correct = false →
        (update_flashcard_mastery f correct now).1.mastery_level =
          max (f.mastery_level - 1) 0) ∧
      (update_flashcard_mastery f correct now).1.mastery_level ≤ 5 ∧
      (update_flashcard_mastery f correct now).2 =
        (update_flashcard_mastery f correct now).1.mastery_level ∧
      (update_flashcard_mastery f correct now).1.next_review =
        some (now +
          (intervalDaysSpec (update_flashcard_mastery f correct now).1.mastery_level : Int)) ∧
      (∀ m rc : Nat, calculate_next_review m rc now = now + (intervalDaysSpec m : Int)) ∧
      (∀ seq : List Bool, (applyReviews f now seq).mastery_level ≤ 5) := by
  intro f correct now h
  refine ⟨rfl, ?_, ?_, update_flashcard_mastery_step_le f correct now h, rfl, ?_, ?_, ?_⟩
  · intro hc
    rw [update_flashcard_mastery_mastery, hc]
    rfl
  · intro hc
    rw [update_flashcard_mastery_mastery, hc]
    rfl
  · rw [update_flashcard_mastery_mastery]
    show some (calculate_next_review _ _ now) = _
    rw [calculate_next_review_eq]
  · intro m rc
    exact calculate_next_review_eq m rc now
  · intro seq
    exact applyReviews_mastery_le seq f now h

theorem reviewFlashcard_spec_witness :
    (update_flashcard_mastery ⟨1, 1, none, 0, 4⟩ true 0).1.mastery_level = 5 ∧
    (update_flashcard_mastery ⟨1, 1, none, 0, 4⟩ true 0).1.next_review = some 60 := by
  have h := reviewFlashcard_spec ⟨1, 1, none, 0, 4⟩ true 0 (by decide)
  refine ⟨by rw [h.2.1 rfl]; decide, ?_⟩
  rw [h.2.2.2.2.2.1]
  decide

lemma flashcard_owned_by_iff (s : Store) (uid : Nat) (f : Flashcard) :
    flashcard_owned_by s uid f = true ↔ OwnsFlashcard s uid f := by
  simp [flashcard_owned_by, topic_owned_by, OwnsFlashcard, List.any_eq_true]

/-- C7: `get_due_flashcards` returns exactly the flashcards that belong to
the user through the Topic to Chapter to Subject chain and whose
`next_review` is set and at most `now`; never-reviewed cards (unset
`next_review`) are excluded. -/
theorem dueFlashcards_spec :
    ∀ (s : Store) (uid : Nat) (now : Int) (f : Flashcard),
      (f ∈ get_due_flashcards s uid now ↔
        f ∈ s.flashcards ∧ OwnsFlashcard s uid f ∧
          ∃ nr, f.next_review = some nr ∧ nr ≤ now) ∧
      (f.next_review = none → f ∉ get_due_flashcards s uid now) := by
  intro s uid now f
  have hmem : f ∈ get_due_flashcards s uid now ↔
      f ∈ s.flashcards ∧ (flashcard_owned_by s uid f &&
        (match f.next_review with
         | some nr => decide (nr ≤ now)
         | none => false)) = true := by
    simp [get_due_flashcards, List.mem_filter]
  constructor
  · rw [hmem]
    simp only [Bool.and_eq_true, flashcard_owned_by_iff]
    constructor
    · rintro ⟨h1, h2, h3⟩
      refine ⟨h1, h2, ?_⟩
      rcases hnr : f.next_review with _ | nr
      · rw [hnr] at h3
        simp at h3
      · rw [hnr] at h3
        simp at h3
        exact ⟨nr, rfl, h3⟩
    · rintro ⟨h1, h2, nr, hnr, hle⟩
      refine ⟨h1, h2, ?_⟩
      rw [hnr]
      simp [hle]
  · intro hnone hmem2
    rw [hmem] at hmem2
    rcases hmem2 with ⟨_, hb⟩
    rw [hnone] at hb
    simp at hb

theorem dueFlashcards_spec_witness :
    (⟨1, 1, some 50, 0, 0⟩ : Flashcard) ∈ get_due_flashcards store_due_cards 1 100 ∧
    (⟨2, 1, none, 0, 0⟩ : Flashcard) ∉ get_due_flashcards store_due_cards 1 100 := by
  constructor
  · exact (dueFlashcards_spec store_due_cards 1 100 ⟨1, 1, some 50, 0, 0⟩).1.mpr
      ⟨by decide, (flashcard_owned_by_iff store_due_cards 1 _).mp (by decide),
        50, rfl, by decide⟩
  · exact (dueFlashcards_spec store_due_cards 1 100 ⟨2, 1, none, 0, 0⟩).2 rfl

/-- C8 (counterexample): for a user who already holds the `first_topic`
badge and still has exactly one completed topic, `check_achievements`
returns the label `First Topic Completed` again even though the badge was
already held before the call. -/
theorem checkAchievements_repeats_counterexample :
    (check_achievements store_first_topic_held demo_user).2 = ["First Topic Completed"] ∧
    hasBadge store_first_topic_held.badges demo_user.id "first_topic" = true := by
  constructor
  · have h1 : completed_topics_count store_first_topic_held demo_user.id = 1 := by decide
    have h2 : mastered_flashcards_count store_first_topic_held demo_user.id = 0 := by decide
    have h3 : total_study_hours store_first_topic_held demo_user.id = 0 := by
      simp [total_study_hours, total_study_minutes, store_first_topic_held, demo_user]
    simp [check_achievements, h1, h2, h3]
    norm_num
  · decide

/-- C8 (amended): `check_achievements` returns the labels of exactly the
thresholds satisfied at call time, regardless of whether the corresponding
badge was newly granted or already held (the badge itself is deduplicated by
`grant_badge`, but the label is appended unconditionally). -/
theorem checkAchievements_labels_iff :
    ∀ (s : Store) (u : User),
      ("First Topic Completed" ∈ (check_achievements s u).2 ↔
        completed_topics_count s u.id = 1) ∧
      ("Topics Master" ∈ (check_achievements s u).2 ↔
        100 ≤ completed_topics_count s u.id) ∧
      ("Flashcard Master" ∈ (check_achievements s u).2 ↔
        50 ≤ mastered_flashcards_count s u.id) ∧
      ("Study Warrior" ∈ (check_achievements s u).2 ↔
        100 ≤ total_study_hours s u.id) := by
  intro s u
  simp only [check_achievements]
  split_ifs with h1 h2 h3 h4 <;> simp_all

end StudyPlanner
